import Mathlib

/-!
Shallow embedding of the grokeddev/backend treasury service, covering the
operation ledger (MemStorage, src/unnamed/part_000), the HTTP operation
handlers (src/unnamed/part_001), the Solana batch-distribution service
(src/unnamed/part_002) and the request-validation schemas
(src/shared/schema.ts).

Modelling conventions:
- TypeScript numbers used for amounts/balances are embedded as rationals.
- randomUUID is embedded as a fresh-id counter (`nextId`); the JS Maps of
  MemStorage are embedded as association lists on those ids, where Map.set
  on a fresh key is an append and Map.set on an existing key is an
  in-place replacement.
- Remote calls (Solana RPC, PumpPortal) are passed in as explicit oracle
  functions returning the TransactionResult shape of shared/schema.ts;
  their network implementation is outside the embedded program.
- Timestamps are embedded as a `now : Nat` tick passed to the handlers;
  free-text description/thought strings that no claim depends on are
  abbreviated to fixed strings.
-/

namespace GrokedBackend

/-- Result shape of every remote gateway call (shared/schema.ts, TransactionResult). -/
structure TransactionResult where
  success : Bool
  txSignature : Option String
  error : Option String
deriving DecidableEq

/-- One airdrop recipient as validated by airdropRequestSchema (schema.ts 209-212). -/
structure Recipient where
  wallet : String
  amount : ℚ
deriving DecidableEq

/-- The airdrop `type` enum of airdropRequestSchema (schema.ts 207). -/
inductive AirdropType where
  | sol
  | token
deriving DecidableEq

/-- A parsed airdrop request body (schema.ts airdropRequestSchema). -/
structure AirdropRequest where
  type : AirdropType
  tokenMint : Option String
  recipients : List Recipient
  snapshotId : Option String
deriving DecidableEq

/-- zod airdropRequestSchema constraints beyond the field shape: recipients
nonempty (`.min(1)`), every amount strictly positive (`.positive()`).
tokenMint is declared `.optional()` and is NOT checked here. -/
def airdropRequestValid (r : AirdropRequest) : Bool :=
  decide (1 ≤ r.recipients.length) && r.recipients.all fun x => decide (0 < x.amount)

/-- One element of an airdrop record's distributionData array
(routes, part_001 394-400). -/
structure DistributionEntry where
  wallet : String
  amount : ℚ
  txSignature : Option String
  success : Bool
  error : Option String
deriving DecidableEq

/-- The airdrops row (schema.ts 119-130); createdAt is elided, no claim reads it. -/
structure Airdrop where
  id : Nat
  type : AirdropType
  tokenMint : Option String
  totalAmount : ℚ
  recipientCount : Nat
  distributionData : List DistributionEntry
  snapshotId : Option String
  status : String
  completedAt : Option Nat
deriving DecidableEq

/-- The fields of Partial Airdrop that the routes pass to updateAirdrop; an
outer `some` means the key is present in the updates object. -/
structure AirdropUpdate where
  distributionData : Option (List DistributionEntry) := none
  status : Option String := none
  completedAt : Option (Option Nat) := none
deriving DecidableEq

/-- The object spread `{ ...airdrop, ...updates }` of MemStorage.updateAirdrop. -/
def applyAirdropUpdate (a : Airdrop) (u : AirdropUpdate) : Airdrop :=
  { a with
    distributionData := u.distributionData.getD a.distributionData
    status := u.status.getD a.status
    completedAt := u.completedAt.getD a.completedAt }

/-- The activity_logs row (schema.ts 98-110); createdAt elided. Metadata is
embedded as a flat key/value list. -/
structure ActivityLog where
  id : Nat
  type : String
  action : String
  description : String
  thought : Option String
  txSignature : Option String
  amount : Option ℚ
  tokenMint : Option String
  metadata : List (String × String)
  status : String
deriving DecidableEq

/-- The fields of Partial ActivityLog that the routes pass to updateActivityLog. -/
structure ActivityLogUpdate where
  status : Option String := none
  txSignature : Option (Option String) := none
  metadata : Option (List (String × String)) := none
deriving DecidableEq

/-- The object spread `{ ...log, ...updates }` of MemStorage.updateActivityLog. -/
def applyActivityLogUpdate (l : ActivityLog) (u : ActivityLogUpdate) : ActivityLog :=
  { l with
    status := u.status.getD l.status
    txSignature := u.txSignature.getD l.txSignature
    metadata := u.metadata.getD l.metadata }

/-- The burn_records row (schema.ts 156-164); createdAt elided. -/
structure BurnRecord where
  id : Nat
  tokenMint : String
  amount : ℚ
  txSignature : Option String
  reason : Option String
  status : String
deriving DecidableEq

/-- The fields of Partial BurnRecord that the burn route passes to updateBurnRecord. -/
structure BurnRecordUpdate where
  status : Option String := none
  txSignature : Option (Option String) := none
deriving DecidableEq

/-- The object spread `{ ...record, ...updates }` of MemStorage.updateBurnRecord. -/
def applyBurnRecordUpdate (r : BurnRecord) (u : BurnRecordUpdate) : BurnRecord :=
  { r with
    status := u.status.getD r.status
    txSignature := u.txSignature.getD r.txSignature }

/-- The buyback_records row (schema.ts 173-182); createdAt elided. -/
structure BuybackRecord where
  id : Nat
  tokenMint : String
  solSpent : ℚ
  tokensReceived : Option ℚ
  txSignature : Option String
  reason : Option String
  status : String
deriving DecidableEq

/-- The fields of Partial BuybackRecord that the buyback route passes. -/
structure BuybackRecordUpdate where
  status : Option String := none
  txSignature : Option (Option String) := none
deriving DecidableEq

/-- The object spread of MemStorage.updateBuybackRecord. -/
def applyBuybackRecordUpdate (r : BuybackRecord) (u : BuybackRecordUpdate) : BuybackRecord :=
  { r with
    status := u.status.getD r.status
    txSignature := u.txSignature.getD r.txSignature }

/-- The creator_rewards row (schema.ts 139-147); createdAt elided. -/
structure CreatorReward where
  id : Nat
  tokenMint : String
  amount : ℚ
  claimTxSignature : Option String
  status : String
  claimedAt : Option Nat
deriving DecidableEq

/-- The fields of Partial CreatorReward that the claim route passes. -/
structure CreatorRewardUpdate where
  status : Option String := none
  claimTxSignature : Option (Option String) := none
  claimedAt : Option (Option Nat) := none
deriving DecidableEq

/-- The object spread of MemStorage.updateCreatorReward. -/
def applyCreatorRewardUpdate (r : CreatorReward) (u : CreatorRewardUpdate) : CreatorReward :=
  { r with
    status := u.status.getD r.status
    claimTxSignature := u.claimTxSignature.getD r.claimTxSignature
    claimedAt := u.claimedAt.getD r.claimedAt }

/-- The wallets row (schema.ts 9-16); createdAt elided. -/
structure Wallet where
  id : Nat
  publicKey : String
  encryptedPrivateKey : String
  type : String
  label : Option String
deriving DecidableEq

/-- In-memory record store (MemStorage, part_000 85-109). Each JS Map is an
association list keyed by the id that randomUUID produced; `nextId` is the
id supply. Only the maps the verified routes touch are carried. -/
structure MemStorage where
  nextId : Nat
  wallets : List (Nat × Wallet)
  airdrops : List (Nat × Airdrop)
  activityLogs : List (Nat × ActivityLog)
  burnRecords : List (Nat × BurnRecord)
  buybackRecords : List (Nat × BuybackRecord)
  creatorRewards : List (Nat × CreatorReward)
deriving DecidableEq

/-- A storage with no records, as built by the MemStorage constructor. -/
def MemStorage.empty : MemStorage :=
  { nextId := 0, wallets := [], airdrops := [], activityLogs := []
    burnRecords := [], buybackRecords := [], creatorRewards := [] }

/-- Map.get on an association list. -/
def lookupA {α : Type} : List (Nat × α) → Nat → Option α
  | [], _ => none
  | p :: t, k => if p.1 = k then some p.2 else lookupA t k

/-- Map.set on a key that is already present: replace the stored value. -/
def replaceA {α : Type} (l : List (Nat × α)) (id : Nat) (v : α) : List (Nat × α) :=
  l.map fun p => if p.1 = id then (id, v) else p

/-- Fields of InsertAirdrop (schema.ts insertAirdropSchema: Airdrop without
id/createdAt/completedAt). -/
structure InsertAirdrop where
  type : AirdropType
  tokenMint : Option String
  totalAmount : ℚ
  recipientCount : Nat
  distributionData : List DistributionEntry
  snapshotId : Option String
  status : String
deriving DecidableEq

/-- MemStorage.createAirdrop (part_000 318-328): assign a fresh id, null
completedAt, store. -/
def MemStorage.createAirdrop (s : MemStorage) (x : InsertAirdrop) : Airdrop × MemStorage :=
  let a : Airdrop :=
    { id := s.nextId, type := x.type, tokenMint := x.tokenMint
      totalAmount := x.totalAmount, recipientCount := x.recipientCount
      distributionData := x.distributionData, snapshotId := x.snapshotId
      status := x.status, completedAt := none }
  (a, { s with airdrops := s.airdrops ++ [(s.nextId, a)], nextId := s.nextId + 1 })

/-- MemStorage.updateAirdrop (part_000 330-336): missing id gives undefined;
otherwise merge the updates over the stored record and store the result. -/
def MemStorage.updateAirdrop (s : MemStorage) (id : Nat) (u : AirdropUpdate) :
    Option Airdrop × MemStorage :=
  match lookupA s.airdrops id with
  | none => (none, s)
  | some a =>
      let a' := applyAirdropUpdate a u
      (some a', { s with airdrops := replaceA s.airdrops id a' })

/-- Fields of InsertActivityLog (schema.ts insertActivityLogSchema). -/
structure InsertActivityLog where
  type : String
  action : String
  description : String
  thought : Option String
  txSignature : Option String
  amount : Option ℚ
  tokenMint : Option String
  metadata : List (String × String)
  status : String
deriving DecidableEq

/-- MemStorage.createActivityLog (part_000 288-297). -/
def MemStorage.createActivityLog (s : MemStorage) (x : InsertActivityLog) :
    ActivityLog × MemStorage :=
  let l : ActivityLog :=
    { id := s.nextId, type := x.type, action := x.action, description := x.description
      thought := x.thought, txSignature := x.txSignature, amount := x.amount
      tokenMint := x.tokenMint, metadata := x.metadata, status := x.status }
  (l, { s with activityLogs := s.activityLogs ++ [(s.nextId, l)], nextId := s.nextId + 1 })

/-- MemStorage.updateActivityLog (part_000 299-305). -/
def MemStorage.updateActivityLog (s : MemStorage) (id : Nat) (u : ActivityLogUpdate) :
    Option ActivityLog × MemStorage :=
  match lookupA s.activityLogs id with
  | none => (none, s)
  | some l =>
      let l' := applyActivityLogUpdate l u
      (some l', { s with activityLogs := replaceA s.activityLogs id l' })

/-- Fields of InsertBurnRecord. -/
structure InsertBurnRecord where
  tokenMint : String
  amount : ℚ
  txSignature : Option String
  reason : Option String
  status : String
deriving DecidableEq

/-- MemStorage.createBurnRecord (part_000 389-398). -/
def MemStorage.createBurnRecord (s : MemStorage) (x : InsertBurnRecord) :
    BurnRecord × MemStorage :=
  let r : BurnRecord :=
    { id := s.nextId, tokenMint := x.tokenMint, amount := x.amount
      txSignature := x.txSignature, reason := x.reason, status := x.status }
  (r, { s with burnRecords := s.burnRecords ++ [(s.nextId, r)], nextId := s.nextId + 1 })

/-- MemStorage.updateBurnRecord (part_000 400-406). -/
def MemStorage.updateBurnRecord (s : MemStorage) (id : Nat) (u : BurnRecordUpdate) :
    Option BurnRecord × MemStorage :=
  match lookupA s.burnRecords id with
  | none => (none, s)
  | some r =>
      let r' := applyBurnRecordUpdate r u
      (some r', { s with burnRecords := replaceA s.burnRecords id r' })

/-- Fields of InsertBuybackRecord. -/
structure InsertBuybackRecord where
  tokenMint : String
  solSpent : ℚ
  tokensReceived : Option ℚ
  txSignature : Option String
  reason : Option String
  status : String
deriving DecidableEq

/-- MemStorage.createBuybackRecord (part_000 421-430). -/
def MemStorage.createBuybackRecord (s : MemStorage) (x : InsertBuybackRecord) :
    BuybackRecord × MemStorage :=
  let r : BuybackRecord :=
    { id := s.nextId, tokenMint := x.tokenMint, solSpent := x.solSpent
      tokensReceived := x.tokensReceived, txSignature := x.txSignature
      reason := x.reason, status := x.status }
  (r, { s with buybackRecords := s.buybackRecords ++ [(s.nextId, r)], nextId := s.nextId + 1 })

/-- MemStorage.updateBuybackRecord (part_000 432-438). -/
def MemStorage.updateBuybackRecord (s : MemStorage) (id : Nat) (u : BuybackRecordUpdate) :
    Option BuybackRecord × MemStorage :=
  match lookupA s.buybackRecords id with
  | none => (none, s)
  | some r =>
      let r' := applyBuybackRecordUpdate r u
      (some r', { s with buybackRecords := replaceA s.buybackRecords id r' })

/-- Fields of InsertCreatorReward. -/
structure InsertCreatorReward where
  tokenMint : String
  amount : ℚ
  claimTxSignature : Option String
  status : String
deriving DecidableEq

/-- MemStorage.createCreatorReward (part_000 356-366): claimedAt starts null. -/
def MemStorage.createCreatorReward (s : MemStorage) (x : InsertCreatorReward) :
    CreatorReward × MemStorage :=
  let r : CreatorReward :=
    { id := s.nextId, tokenMint := x.tokenMint, amount := x.amount
      claimTxSignature := x.claimTxSignature, status := x.status, claimedAt := none }
  (r, { s with creatorRewards := s.creatorRewards ++ [(s.nextId, r)], nextId := s.nextId + 1 })

/-- MemStorage.updateCreatorReward (part_000 368-374). -/
def MemStorage.updateCreatorReward (s : MemStorage) (id : Nat) (u : CreatorRewardUpdate) :
    Option CreatorReward × MemStorage :=
  match lookupA s.creatorRewards id with
  | none => (none, s)
  | some r =>
      let r' := applyCreatorRewardUpdate r u
      (some r', { s with creatorRewards := replaceA s.creatorRewards id r' })

/-- Fields of InsertWallet. -/
structure InsertWallet where
  publicKey : String
  encryptedPrivateKey : String
  type : String
  label : Option String
deriving DecidableEq

/-- MemStorage.createWallet (part_000 140-149). -/
def MemStorage.createWallet (s : MemStorage) (x : InsertWallet) : Wallet × MemStorage :=
  let w : Wallet :=
    { id := s.nextId, publicKey := x.publicKey
      encryptedPrivateKey := x.encryptedPrivateKey, type := x.type, label := x.label }
  (w, { s with wallets := s.wallets ++ [(s.nextId, w)], nextId := s.nextId + 1 })

/-- MemStorage.getTreasuryWallet (part_000 151-153): first wallet whose type
is the string treasury. -/
def MemStorage.getTreasuryWallet (s : MemStorage) : Option Wallet :=
  (s.wallets.map Prod.snd).find? fun w => w.type == "treasury"

/-! SolanaService (src/unnamed/part_002). The remote primitives transferSol,
transferToken, the RPC balance reads and the mint-decimals read are oracle
parameters; the batch loops and the catch-to-default logic are embedded. -/

/-- One element of the array a batch airdrop returns (part_002 353, 378). -/
structure BatchOutcome where
  wallet : String
  result : TransactionResult
deriving DecidableEq

/-- The for-loop of SolanaService.batchAirdropSol (part_002 341-359): call
transferSol for each recipient in order and push one BatchOutcome per call.
The second component is the call log: the recipients handed to the gateway,
in call order (the loop body itself, made observable). -/
def batchAirdropSolAux (transferSol : String → String → ℚ → TransactionResult)
    (fromPrivateKey : String) :
    List Recipient → List BatchOutcome × List Recipient
  | [] => ([], [])
  | recipient :: rest =>
      let result := transferSol fromPrivateKey recipient.wallet recipient.amount
      let tail := batchAirdropSolAux transferSol fromPrivateKey rest
      ({ wallet := recipient.wallet, result := result } :: tail.1, recipient :: tail.2)

/-- The results array returned by batchAirdropSol. -/
def batchAirdropSol (transferSol : String → String → ℚ → TransactionResult)
    (fromPrivateKey : String) (recipients : List Recipient) : List BatchOutcome :=
  (batchAirdropSolAux transferSol fromPrivateKey recipients).1

/-- The gateway call log of batchAirdropSol. -/
def batchAirdropSolAttempts (transferSol : String → String → ℚ → TransactionResult)
    (fromPrivateKey : String) (recipients : List Recipient) : List Recipient :=
  (batchAirdropSolAux transferSol fromPrivateKey recipients).2

/-- The for-loop of SolanaService.batchAirdropTokens (part_002 364-384),
identical to the SOL loop but calling transferToken with the token mint. -/
def batchAirdropTokensAux (transferToken : String → String → String → ℚ → TransactionResult)
    (fromPrivateKey : String) (tokenMint : String) :
    List Recipient → List BatchOutcome × List Recipient
  | [] => ([], [])
  | recipient :: rest =>
      let result := transferToken fromPrivateKey recipient.wallet tokenMint recipient.amount
      let tail := batchAirdropTokensAux transferToken fromPrivateKey tokenMint rest
      ({ wallet := recipient.wallet, result := result } :: tail.1, recipient :: tail.2)

/-- The results array returned by batchAirdropTokens. -/
def batchAirdropTokens (transferToken : String → String → String → ℚ → TransactionResult)
    (fromPrivateKey : String) (tokenMint : String) (recipients : List Recipient) :
    List BatchOutcome :=
  (batchAirdropTokensAux transferToken fromPrivateKey tokenMint recipients).1

/-- The gateway call log of batchAirdropTokens. -/
def batchAirdropTokensAttempts
    (transferToken : String → String → String → ℚ → TransactionResult)
    (fromPrivateKey : String) (tokenMint : String) (recipients : List Recipient) :
    List Recipient :=
  (batchAirdropTokensAux transferToken fromPrivateKey tokenMint recipients).2

/-- LAMPORTS_PER_SOL of @solana/web3.js. -/
def LAMPORTS_PER_SOL : ℚ := 1000000000

/-- SolanaService.getSolBalance (part_002 64-72): the RPC getBalance call is
the oracle argument (ok lamports, or error when the RPC throws); any error is
caught and turned into the balance 0. -/
def getSolBalance (getBalance : Except String Nat) : ℚ :=
  match getBalance with
  | .ok balance => (balance : ℚ) / LAMPORTS_PER_SOL
  | .error _ => 0

/-- SolanaService.getTokenDecimals (part_002 77-86): read the mint account,
fall back to 6 decimals on any error. -/
def getTokenDecimals (getMint : Except String Nat) : Nat :=
  match getMint with
  | .ok decimals => decimals
  | .error _ => 6

/-- SolanaService.getTokenBalance (part_002 91-104): the associated token
account read is the oracle argument (ok raw amount, or error when the account
is missing or the RPC throws); any error is caught and turned into 0,
otherwise the raw amount is scaled by the mint's decimals. -/
def getTokenBalance (getAccount : Except String Nat) (getMint : Except String Nat) : ℚ :=
  match getAccount with
  | .ok amount => (amount : ℚ) / 10 ^ getTokenDecimals getMint
  | .error _ => 0

/-! Route handlers (src/unnamed/part_001). Each handler is a pure function
of the parsed request, the oracle gateway functions, the clock tick and the
storage state, returning the HTTP response and the next state. -/

/-- Responses of POST /api/airdrop: a 400 error, or the 200 body
(part_001 414-419). -/
inductive AirdropResponse where
  | badRequest (error : String)
  | ok (id : Nat) (successCount failCount : Nat) (distributions : List DistributionEntry)
deriving DecidableEq

/-- The status expression of the updateAirdrop call (part_001 405):
completed when every result succeeded, else the string for mixed outcomes. -/
def airdropStatusOf (successCount total : Nat) : String :=
  if successCount = total then "completed" else "partial"

/-- The status expression of the updateActivityLog call (part_001 410). -/
def airdropLogStatusOf (successCount : Nat) : String :=
  if successCount > 0 then "success" else "failed"

/-- The distributionData construction (part_001 394-400):
results.map over (result, index), reading the amount from recipients at the
same index. -/
def mkDistributionData (recipients : List Recipient) (results : List BatchOutcome) :
    List DistributionEntry :=
  results.enum.map fun p =>
    { wallet := p.2.wallet
      amount := (recipients.getD p.1 { wallet := "", amount := 0 }).amount
      txSignature := p.2.result.txSignature
      success := p.2.result.success
      error := p.2.result.error }

/-- The tail of the airdrop handler after the batch returns
(part_001 392-419): count successes, build distributionData, close the
airdrop record, close the activity log, answer. -/
def finishAirdrop (now : Nat) (recipients : List Recipient)
    (airdropId logId : Nat) (results : List BatchOutcome) (s : MemStorage) :
    AirdropResponse × MemStorage :=
  let successCount := results.countP fun r => r.result.success
  let distributionData := mkDistributionData recipients results
  let s1 := (s.updateAirdrop airdropId
      { distributionData := some distributionData
        status := some (airdropStatusOf successCount results.length)
        completedAt := some (some now) }).2
  let s2 := (s1.updateActivityLog logId
      { status := some (airdropLogStatusOf successCount)
        metadata := some [("successCount", toString successCount),
                          ("failCount", toString (results.length - successCount))] }).2
  (.ok airdropId successCount (results.length - successCount) distributionData, s2)

/-- POST /api/airdrop (part_001 336-420). Order of effects is the source's:
validate, require a treasury wallet, compute the total, create the airdrop
record in processing, create the pending activity log, run the batch (for a
token airdrop, first require tokenMint — note this check happens after both
records were created), then close both records and answer. -/
def postAirdrop (transferSol : String → String → ℚ → TransactionResult)
    (transferToken : String → String → String → ℚ → TransactionResult)
    (now : Nat) (req : AirdropRequest) (s : MemStorage) :
    AirdropResponse × MemStorage :=
  if airdropRequestValid req = false then (.badRequest "invalid request", s)
  else
    match s.getTreasuryWallet with
    | none => (.badRequest "Treasury wallet not configured", s)
    | some tw =>
        let totalAmount := req.recipients.foldl (fun acc r => acc + r.amount) 0
        let created := s.createAirdrop
          { type := req.type, tokenMint := req.tokenMint, totalAmount := totalAmount
            recipientCount := req.recipients.length, distributionData := []
            snapshotId := req.snapshotId, status := "processing" }
        let airdrop := created.1
        let s1 := created.2
        let logged := s1.createActivityLog
          { type := "airdrop"
            action := match req.type with | .sol => "airdrop_sol" | .token => "airdrop_token"
            description := "airdrop", thought := some "airdrop"
            txSignature := none, amount := some totalAmount
            tokenMint := req.tokenMint, metadata := [], status := "pending" }
        let log := logged.1
        let s2 := logged.2
        match req.type with
        | .sol =>
            let results := batchAirdropSol transferSol tw.encryptedPrivateKey req.recipients
            finishAirdrop now req.recipients airdrop.id log.id results s2
        | .token =>
            match req.tokenMint with
            | none => (.badRequest "Token mint required for token airdrop", s2)
            | some mint =>
                let results := batchAirdropTokens transferToken tw.encryptedPrivateKey
                  mint req.recipients
                finishAirdrop now req.recipients airdrop.id log.id results s2

/-- A parsed burn request body (schema.ts burnRequestSchema). -/
structure BurnRequest where
  tokenMint : String
  amount : ℚ
  reason : Option String
deriving DecidableEq

/-- zod burnRequestSchema constraint: amount strictly positive. -/
def burnRequestValid (r : BurnRequest) : Bool :=
  decide (0 < r.amount)

/-- Responses of POST /api/burn (part_001 480-488). -/
inductive BurnResponse where
  | badRequest (error : String)
  | ok (txSignature : Option String) (amount : ℚ)
  | failed (error : Option String)
deriving DecidableEq

/-- POST /api/burn (part_001 431-489): validate, require treasury, open the
burn record and the activity log in pending, run the gateway burn, close
both with success or failed, answer. The gateway outcome is the oracle
burnTokens applied to the treasury key, mint and amount. -/
def postBurn (burnTokens : String → String → ℚ → TransactionResult)
    (req : BurnRequest) (s : MemStorage) : BurnResponse × MemStorage :=
  if burnRequestValid req = false then (.badRequest "invalid request", s)
  else
    match s.getTreasuryWallet with
    | none => (.badRequest "Treasury wallet not configured", s)
    | some tw =>
        let created := s.createBurnRecord
          { tokenMint := req.tokenMint, amount := req.amount
            txSignature := none, reason := req.reason, status := "pending" }
        let record := created.1
        let s1 := created.2
        let logged := s1.createActivityLog
          { type := "burn", action := "burn_tokens", description := "burn"
            thought := req.reason, txSignature := none, amount := some req.amount
            tokenMint := some req.tokenMint, metadata := [], status := "pending" }
        let log := logged.1
        let s2 := logged.2
        let result := burnTokens tw.encryptedPrivateKey req.tokenMint req.amount
        let s3 := (s2.updateBurnRecord record.id
          { status := some (if result.success then "success" else "failed")
            txSignature := some result.txSignature }).2
        let s4 := (s3.updateActivityLog log.id
          { status := some (if result.success then "success" else "failed")
            txSignature := some result.txSignature }).2
        if result.success then (.ok result.txSignature req.amount, s4)
        else (.failed result.error, s4)

/-- A parsed buyback request body (schema.ts buybackRequestSchema). -/
structure BuybackRequest where
  tokenMint : String
  solAmount : ℚ
  reason : Option String
deriving DecidableEq

/-- zod buybackRequestSchema constraint: solAmount strictly positive. -/
def buybackRequestValid (r : BuybackRequest) : Bool :=
  decide (0 < r.solAmount)

/-- Responses of POST /api/buyback (part_001 549-557). -/
inductive BuybackResponse where
  | badRequest (error : String)
  | ok (txSignature : Option String) (solSpent : ℚ)
  | failed (error : Option String)
deriving DecidableEq

/-- POST /api/buyback (part_001 500-558), same three-step shape as burn with
the PumpPortal buyToken gateway. -/
def postBuyback (buyToken : String → String → ℚ → TransactionResult)
    (req : BuybackRequest) (s : MemStorage) : BuybackResponse × MemStorage :=
  if buybackRequestValid req = false then (.badRequest "invalid request", s)
  else
    match s.getTreasuryWallet with
    | none => (.badRequest "Treasury wallet not configured", s)
    | some tw =>
        let created := s.createBuybackRecord
          { tokenMint := req.tokenMint, solSpent := req.solAmount
            tokensReceived := none, txSignature := none
            reason := req.reason, status := "pending" }
        let record := created.1
        let s1 := created.2
        let logged := s1.createActivityLog
          { type := "buyback", action := "buyback_tokens", description := "buyback"
            thought := req.reason, txSignature := none, amount := some req.solAmount
            tokenMint := some req.tokenMint, metadata := [], status := "pending" }
        let log := logged.1
        let s2 := logged.2
        let result := buyToken tw.encryptedPrivateKey req.tokenMint req.solAmount
        let s3 := (s2.updateBuybackRecord record.id
          { status := some (if result.success then "success" else "failed")
            txSignature := some result.txSignature }).2
        let s4 := (s3.updateActivityLog log.id
          { status := some (if result.success then "success" else "failed")
            txSignature := some result.txSignature }).2
        if result.success then (.ok result.txSignature req.solAmount, s4)
        else (.failed result.error, s4)

/-- Responses of POST /api/rewards/claim (part_001 620-628). -/
inductive ClaimResponse where
  | badRequest (error : String)
  | ok (txSignature : Option String) (amount : ℚ)
  | failed (error : Option String)
deriving DecidableEq

/-- POST /api/rewards/claim (part_001 569-629): read the pending amount,
open the reward record and the activity log in pending, run the gateway
claim, close the record with claimed or failed and the log with success or
failed, answer. -/
def postClaimRewards (getPendingRewards : String → ℚ)
    (claimCreatorRewards : String → String → TransactionResult)
    (now : Nat) (tokenMint : String) (s : MemStorage) : ClaimResponse × MemStorage :=
  match s.getTreasuryWallet with
  | none => (.badRequest "Treasury wallet not configured", s)
  | some tw =>
      let pendingAmount := getPendingRewards tokenMint
      let created := s.createCreatorReward
        { tokenMint := tokenMint, amount := pendingAmount
          claimTxSignature := none, status := "pending" }
      let record := created.1
      let s1 := created.2
      let logged := s1.createActivityLog
        { type := "claim_rewards", action := "claim_creator_rewards"
          description := "claim", thought := some "claim", txSignature := none
          amount := some pendingAmount, tokenMint := some tokenMint
          metadata := [], status := "pending" }
      let log := logged.1
      let s2 := logged.2
      let result := claimCreatorRewards tw.encryptedPrivateKey tokenMint
      let s3 := (s2.updateCreatorReward record.id
        { status := some (if result.success then "claimed" else "failed")
          claimTxSignature := some result.txSignature
          claimedAt := some (if result.success then some now else none) }).2
      let s4 := (s3.updateActivityLog log.id
        { status := some (if result.success then "success" else "failed")
          txSignature := some result.txSignature }).2
      if result.success then (.ok result.txSignature pendingAmount, s4)
      else (.failed result.error, s4)

/-- The wallet pair produced by SolanaService.generateWallet (part_002 45-51). -/
structure WalletData where
  publicKey : String
  privateKey : String
deriving DecidableEq

/-- The 200 body of POST /api/wallet/generate (part_001 97-103): id, public
key, type, label and a fixed warning, and nothing else. -/
structure WalletGenerateResponse where
  id : Nat
  publicKey : String
  type : String
  label : Option String
  warning : String
deriving DecidableEq

/-- POST /api/wallet/generate (part_001 73-104): store the generated pair
(the private key goes only into the wallet row), log the generation with
metadata limited to the public key and type, and answer without the private
key. -/
def postWalletGenerate (walletData : WalletData) (type : String) (label : Option String)
    (s : MemStorage) : WalletGenerateResponse × MemStorage :=
  let created := s.createWallet
    { publicKey := walletData.publicKey, encryptedPrivateKey := walletData.privateKey
      type := type, label := label }
  let wallet := created.1
  let s1 := created.2
  let s2 := (s1.createActivityLog
    { type := "wallet", action := "generate"
      description := "Generated new wallet", thought := none, txSignature := none
      amount := none, tokenMint := none
      metadata := [("publicKey", wallet.publicKey), ("type", type)]
      status := "success" }).2
  ({ id := wallet.id, publicKey := wallet.publicKey, type := wallet.type
     label := wallet.label
     warning := "Private key stored securely. Export via secure channel if needed." }, s2)

/-- Modelled from the spec: the repository source has no holder-snapshot to
recipient-list planner (src only captures snapshots, part_001 261-312); this
follows section 4.3 of the spec: every holder but the last is allocated
total times balance over totalSupplyHeld, and the last holder is allocated
the exact remainder, total minus the sum of the previous shares. -/
def planProportional (balances : List ℚ) (total : ℚ) : List ℚ :=
  match balances with
  | [] => []
  | _ :: _ =>
      let totalHeld := balances.sum
      let shares := balances.dropLast.map fun b => total * (b / totalHeld)
      shares ++ [total - shares.sum]

/-! Helper lemmas about the association-list store. -/

/-- Looking up a freshly appended key finds the appended value. -/
theorem lookupA_append_single_self {α : Type} (l : List (Nat × α)) (k : Nat) (v : α)
    (h : lookupA l k = none) : lookupA (l ++ [(k, v)]) k = some v := by
  induction l with
  | nil => simp [lookupA]
  | cons p t ih =>
      by_cases hp : p.1 = k
      · simp [lookupA, hp] at h
      · simp [lookupA, hp] at h ⊢
        exact ih h

/-- Appending a pair with a fresh key does not change other lookups. -/
theorem lookupA_append_single_ne {α : Type} (l : List (Nat × α)) (k k' : Nat) (v : α)
    (h : k ≠ k') : lookupA (l ++ [(k, v)]) k' = lookupA l k' := by
  induction l with
  | nil => simp [lookupA, h]
  | cons p t ih =>
      by_cases hp : p.1 = k'
      · simp [lookupA, hp]
      · simp only [List.cons_append, lookupA, hp, if_false]
        exact ih

/-- Replacing a key rewrites exactly its stored value. -/
theorem lookupA_replaceA_self {α : Type} (l : List (Nat × α)) (k : Nat) (v : α) :
    lookupA (replaceA l k v) k = (lookupA l k).map fun _ => v := by
  induction l with
  | nil => simp [lookupA, replaceA]
  | cons p t ih =>
      by_cases hp : p.1 = k
      · simp [lookupA, replaceA, hp]
      · have hstep : replaceA (p :: t) k v = p :: replaceA t k v := by
          simp [replaceA, hp]
        rw [hstep]
        simp [lookupA, hp, ih]

/-- All keys of the list are below the bound. -/
def keysBelow {α : Type} (l : List (Nat × α)) (n : Nat) : Prop :=
  ∀ p ∈ l, p.1 < n

/-- A key at or above the bound is absent. -/
theorem lookupA_eq_none_of_ge {α : Type} (l : List (Nat × α)) (n m : Nat)
    (h : keysBelow l n) (hm : n ≤ m) : lookupA l m = none := by
  induction l with
  | nil => rfl
  | cons p t ih =>
      have hp : p.1 < n := h p (List.mem_cons_self p t)
      have hne : p.1 ≠ m := by omega
      simp only [lookupA, hne, if_false]
      exact ih fun q hq => h q (List.mem_cons_of_mem p hq)

/-- Well-formed store: the id supply is ahead of every stored key. Every
state reachable from MemStorage.empty satisfies this. -/
def MemStorage.WF (s : MemStorage) : Prop :=
  keysBelow s.wallets s.nextId ∧ keysBelow s.airdrops s.nextId ∧
  keysBelow s.activityLogs s.nextId ∧ keysBelow s.burnRecords s.nextId ∧
  keysBelow s.buybackRecords s.nextId ∧ keysBelow s.creatorRewards s.nextId

/-! Helper lemmas about the batch loops and the distribution data. -/

/-- The SOL batch loop is a map over the recipients, and its call log is the
recipient list itself. -/
theorem batchAirdropSolAux_spec (transferSol : String → String → ℚ → TransactionResult)
    (fromPrivateKey : String) (recipients : List Recipient) :
    batchAirdropSolAux transferSol fromPrivateKey recipients =
      (recipients.map fun r =>
        { wallet := r.wallet, result := transferSol fromPrivateKey r.wallet r.amount },
       recipients) := by
  induction recipients with
  | nil => rfl
  | cons r rest ih => simp [batchAirdropSolAux, ih]

/-- The token batch loop is a map over the recipients, and its call log is
the recipient list itself. -/
theorem batchAirdropTokensAux_spec
    (transferToken : String → String → String → ℚ → TransactionResult)
    (fromPrivateKey tokenMint : String) (recipients : List Recipient) :
    batchAirdropTokensAux transferToken fromPrivateKey tokenMint recipients =
      (recipients.map fun r =>
        { wallet := r.wallet
          result := transferToken fromPrivateKey r.wallet tokenMint r.amount },
       recipients) := by
  induction recipients with
  | nil => rfl
  | cons r rest ih => simp [batchAirdropTokensAux, ih]

/-- The SOL batch returns one outcome per recipient. -/
theorem batchAirdropSol_length (transferSol : String → String → ℚ → TransactionResult)
    (fromPrivateKey : String) (recipients : List Recipient) :
    (batchAirdropSol transferSol fromPrivateKey recipients).length = recipients.length := by
  simp [batchAirdropSol, batchAirdropSolAux_spec]

/-- The token batch returns one outcome per recipient. -/
theorem batchAirdropTokens_length
    (transferToken : String → String → String → ℚ → TransactionResult)
    (fromPrivateKey tokenMint : String) (recipients : List Recipient) :
    (batchAirdropTokens transferToken fromPrivateKey tokenMint recipients).length
      = recipients.length := by
  simp [batchAirdropTokens, batchAirdropTokensAux_spec]

/-- distributionData has one entry per batch result. -/
theorem mkDistributionData_length (recipients : List Recipient)
    (results : List BatchOutcome) :
    (mkDistributionData recipients results).length = results.length := by
  simp [mkDistributionData]

/-- When the batch produced one result per recipient, the entry amounts are
exactly the requested amounts, in order. -/
theorem mkDistributionData_map_amount (recipients : List Recipient)
    (results : List BatchOutcome) (h : results.length = recipients.length) :
    (mkDistributionData recipients results).map (fun e => e.amount)
      = recipients.map fun r => r.amount := by
  apply List.ext_getElem
  · simp [mkDistributionData, h]
  · intro i h1 h2
    simp only [List.getElem_map, mkDistributionData, List.getElem_enum]
    rw [List.getD_eq_getElem]

/-- The reduce computing totalAmount (part_001 350) is the list sum. -/
theorem foldl_add_amount (l : List Recipient) (init : ℚ) :
    l.foldl (fun acc r => acc + r.amount) init = init + (l.map fun r => r.amount).sum := by
  induction l generalizing init with
  | nil => simp
  | cons r t ih => simp [ih, add_assoc]

/-- updateActivityLog never touches the airdrops map. -/
theorem updateActivityLog_airdrops (s : MemStorage) (id : Nat) (u : ActivityLogUpdate) :
    (s.updateActivityLog id u).2.airdrops = s.airdrops := by
  unfold MemStorage.updateActivityLog
  cases lookupA s.activityLogs id <;> rfl

/-- updateActivityLog never touches the burn map. -/
theorem updateActivityLog_burnRecords (s : MemStorage) (id : Nat) (u : ActivityLogUpdate) :
    (s.updateActivityLog id u).2.burnRecords = s.burnRecords := by
  unfold MemStorage.updateActivityLog
  cases lookupA s.activityLogs id <;> rfl

/-- updateActivityLog never touches the buyback map. -/
theorem updateActivityLog_buybackRecords (s : MemStorage) (id : Nat)
    (u : ActivityLogUpdate) :
    (s.updateActivityLog id u).2.buybackRecords = s.buybackRecords := by
  unfold MemStorage.updateActivityLog
  cases lookupA s.activityLogs id <;> rfl

/-- updateActivityLog never touches the rewards map. -/
theorem updateActivityLog_creatorRewards (s : MemStorage) (id : Nat)
    (u : ActivityLogUpdate) :
    (s.updateActivityLog id u).2.creatorRewards = s.creatorRewards := by
  unfold MemStorage.updateActivityLog
  cases lookupA s.activityLogs id <;> rfl

/-- updateAirdrop never touches the activity-log map. -/
theorem updateAirdrop_activityLogs (s : MemStorage) (id : Nat) (u : AirdropUpdate) :
    (s.updateAirdrop id u).2.activityLogs = s.activityLogs := by
  unfold MemStorage.updateAirdrop
  cases lookupA s.airdrops id <;> rfl

/-- updateBurnRecord never touches the activity-log map. -/
theorem updateBurnRecord_activityLogs (s : MemStorage) (id : Nat) (u : BurnRecordUpdate) :
    (s.updateBurnRecord id u).2.activityLogs = s.activityLogs := by
  unfold MemStorage.updateBurnRecord
  cases lookupA s.burnRecords id <;> rfl

/-- updateBuybackRecord never touches the activity-log map. -/
theorem updateBuybackRecord_activityLogs (s : MemStorage) (id : Nat)
    (u : BuybackRecordUpdate) :
    (s.updateBuybackRecord id u).2.activityLogs = s.activityLogs := by
  unfold MemStorage.updateBuybackRecord
  cases lookupA s.buybackRecords id <;> rfl

/-- updateCreatorReward never touches the activity-log map. -/
theorem updateCreatorReward_activityLogs (s : MemStorage) (id : Nat)
    (u : CreatorRewardUpdate) :
    (s.updateCreatorReward id u).2.activityLogs = s.activityLogs := by
  unfold MemStorage.updateCreatorReward
  cases lookupA s.creatorRewards id <;> rfl

/-- The response finishAirdrop returns, for any store. -/
theorem finishAirdrop_fst (now : Nat) (recipients : List Recipient)
    (airdropId logId : Nat) (results : List BatchOutcome) (s : MemStorage) :
    (finishAirdrop now recipients airdropId logId results s).1 =
      .ok airdropId (results.countP fun r => r.result.success)
        (results.length - results.countP fun r => r.result.success)
        (mkDistributionData recipients results) := rfl

/-- After finishAirdrop, the airdrop record carries the outcome sequence,
the derived status and the completion tick. -/
theorem finishAirdrop_airdrops {now0 : Nat} {recipients0 : List Recipient}
    {airdropId0 logId0 : Nat} {results0 : List BatchOutcome} {s0 : MemStorage}
    (a0 : Airdrop) (ha : lookupA s0.airdrops airdropId0 = some a0) :
    lookupA
      (finishAirdrop now0 recipients0 airdropId0 logId0 results0 s0).2.airdrops airdropId0
      = some { a0 with
          distributionData := mkDistributionData recipients0 results0
          status := airdropStatusOf (results0.countP fun r => r.result.success)
            results0.length
          completedAt := some now0 } := by
  unfold finishAirdrop
  rw [updateActivityLog_airdrops]
  simp only [MemStorage.updateAirdrop, ha]
  rw [lookupA_replaceA_self, ha]
  simp [applyAirdropUpdate]

/-- After finishAirdrop, the paired activity log carries the success-count
derived status and the count metadata. -/
theorem finishAirdrop_activityLogs {now0 : Nat} {recipients0 : List Recipient}
    {airdropId0 logId0 : Nat} {results0 : List BatchOutcome} {s0 : MemStorage}
    (l0 : ActivityLog) (hl : lookupA s0.activityLogs logId0 = some l0) :
    lookupA
      (finishAirdrop now0 recipients0 airdropId0 logId0 results0 s0).2.activityLogs logId0
      = some { l0 with
          status := airdropLogStatusOf (results0.countP fun r => r.result.success)
          metadata :=
            [("successCount", toString (results0.countP fun r => r.result.success)),
             ("failCount", toString
               (results0.length - results0.countP fun r => r.result.success))] } := by
  unfold finishAirdrop
  have hmid : lookupA
      ((s0.updateAirdrop airdropId0
        { distributionData := some (mkDistributionData recipients0 results0)
          status := some (airdropStatusOf (results0.countP fun r => r.result.success)
            results0.length)
          completedAt := some (some now0) }).2).activityLogs logId0 = some l0 := by
    rw [updateAirdrop_activityLogs]
    exact hl
  simp only [MemStorage.updateActivityLog, hmid]
  rw [lookupA_replaceA_self, hmid]
  simp [applyActivityLogUpdate]

/-- What a 200 answer of POST /api/airdrop pins down: which batch produced
the outcomes, the response counts, and the closed airdrop record and closed
activity log stored under the two fresh ids. -/
theorem postAirdrop_ok_spec (transferSol : String → String → ℚ → TransactionResult)
    (transferToken : String → String → String → ℚ → TransactionResult)
    (now : Nat) (req : AirdropRequest) (s : MemStorage) (hwf : s.WF)
    (id sc fc : Nat) (dd : List DistributionEntry)
    (h : (postAirdrop transferSol transferToken now req s).1 = .ok id sc fc dd) :
    ∃ results : List BatchOutcome,
      results.length = req.recipients.length ∧
      id = s.nextId ∧
      sc = results.countP (fun r => r.result.success) ∧
      dd = mkDistributionData req.recipients results ∧
      lookupA (postAirdrop transferSol transferToken now req s).2.airdrops id = some
        { id := s.nextId, type := req.type, tokenMint := req.tokenMint
          totalAmount := req.recipients.foldl (fun acc r => acc + r.amount) 0
          recipientCount := req.recipients.length
          distributionData := mkDistributionData req.recipients results
          snapshotId := req.snapshotId
          status := airdropStatusOf (results.countP fun r => r.result.success)
            results.length
          completedAt := some now } ∧
      ∃ l : ActivityLog,
        lookupA (postAirdrop transferSol transferToken now req s).2.activityLogs
          (s.nextId + 1) = some l ∧
        l.status = airdropLogStatusOf (results.countP fun r => r.result.success) := by
  obtain ⟨ty, mint, recipients, snap⟩ := req
  by_cases hv : airdropRequestValid ⟨ty, mint, recipients, snap⟩ = false
  · unfold postAirdrop at h
    rw [if_pos hv] at h
    exact absurd h (by simp)
  · have hanone : lookupA s.airdrops s.nextId = none :=
      lookupA_eq_none_of_ge _ _ _ hwf.2.1 le_rfl
    have hlnone : lookupA s.activityLogs (s.nextId + 1) = none :=
      lookupA_eq_none_of_ge _ _ _ hwf.2.2.1 (Nat.le_succ _)
    cases hw : MemStorage.getTreasuryWallet s with
    | none =>
        unfold postAirdrop at h
        rw [if_neg hv, hw] at h
        exact absurd h (by simp)
    | some tw =>
        cases ty with
        | sol =>
            have hred : postAirdrop transferSol transferToken now
                ⟨AirdropType.sol, mint, recipients, snap⟩ s
                = finishAirdrop now recipients s.nextId (s.nextId + 1)
                    (batchAirdropSol transferSol tw.encryptedPrivateKey recipients)
                    (((s.createAirdrop
                        { type := AirdropType.sol, tokenMint := mint
                          totalAmount :=
                            recipients.foldl (fun acc r => acc + r.amount) 0
                          recipientCount := recipients.length
                          distributionData := [], snapshotId := snap
                          status := "processing" }).2.createActivityLog
                        { type := "airdrop", action := "airdrop_sol"
                          description := "airdrop", thought := some "airdrop"
                          txSignature := none
                          amount := some
                            (recipients.foldl (fun acc r => acc + r.amount) 0)
                          tokenMint := mint, metadata := []
                          status := "pending" }).2) := by
              unfold postAirdrop
              rw [if_neg hv, hw]
              simp [MemStorage.createAirdrop, MemStorage.createActivityLog]
            rw [hred] at h
            rw [finishAirdrop_fst] at h
            simp only [AirdropResponse.ok.injEq] at h
            obtain ⟨hid, hsc, hfc, hdd⟩ := h
            refine ⟨batchAirdropSol transferSol tw.encryptedPrivateKey recipients,
              batchAirdropSol_length _ _ _, hid.symm, hsc.symm, hdd.symm, ?_, ?_⟩
            · rw [hred, ← hid]
              rw [finishAirdrop_airdrops
                { id := s.nextId, type := AirdropType.sol, tokenMint := mint
                  totalAmount := recipients.foldl (fun acc r => acc + r.amount) 0
                  recipientCount := recipients.length
                  distributionData := [], snapshotId := snap
                  status := "processing", completedAt := none }]
              simp only [MemStorage.createAirdrop, MemStorage.createActivityLog]
              exact lookupA_append_single_self _ _ _ hanone
            · rw [hred]
              rw [finishAirdrop_activityLogs
                { id := s.nextId + 1, type := "airdrop", action := "airdrop_sol"
                  description := "airdrop", thought := some "airdrop"
                  txSignature := none
                  amount := some (recipients.foldl (fun acc r => acc + r.amount) 0)
                  tokenMint := mint, metadata := [], status := "pending" }]
              · exact ⟨_, rfl, rfl⟩
              · simp only [MemStorage.createAirdrop, MemStorage.createActivityLog]
                exact lookupA_append_single_self _ _ _ hlnone
        | token =>
            cases hm : mint with
            | none =>
                subst hm
                unfold postAirdrop at h
                rw [if_neg hv, hw] at h
                simp at h
            | some m =>
                subst hm
                have hred : postAirdrop transferSol transferToken now
                    ⟨AirdropType.token, some m, recipients, snap⟩ s
                    = finishAirdrop now recipients s.nextId (s.nextId + 1)
                        (batchAirdropTokens transferToken tw.encryptedPrivateKey m
                          recipients)
                        (((s.createAirdrop
                            { type := AirdropType.token, tokenMint := some m
                              totalAmount :=
                                recipients.foldl (fun acc r => acc + r.amount) 0
                              recipientCount := recipients.length
                              distributionData := [], snapshotId := snap
                              status := "processing" }).2.createActivityLog
                            { type := "airdrop", action := "airdrop_token"
                              description := "airdrop", thought := some "airdrop"
                              txSignature := none
                              amount := some
                                (recipients.foldl (fun acc r => acc + r.amount) 0)
                              tokenMint := some m, metadata := []
                              status := "pending" }).2) := by
                  unfold postAirdrop
                  rw [if_neg hv, hw]
                  simp [MemStorage.createAirdrop, MemStorage.createActivityLog]
                rw [hred] at h
                rw [finishAirdrop_fst] at h
                simp only [AirdropResponse.ok.injEq] at h
                obtain ⟨hid, hsc, hfc, hdd⟩ := h
                refine ⟨batchAirdropTokens transferToken tw.encryptedPrivateKey m
                  recipients,
                  batchAirdropTokens_length _ _ _ _, hid.symm, hsc.symm, hdd.symm,
                  ?_, ?_⟩
                · rw [hred, ← hid]
                  rw [finishAirdrop_airdrops
                    { id := s.nextId, type := AirdropType.token, tokenMint := some m
                      totalAmount := recipients.foldl (fun acc r => acc + r.amount) 0
                      recipientCount := recipients.length
                      distributionData := [], snapshotId := snap
                      status := "processing", completedAt := none }]
                  simp only [MemStorage.createAirdrop, MemStorage.createActivityLog]
                  exact lookupA_append_single_self _ _ _ hanone
                · rw [hred]
                  rw [finishAirdrop_activityLogs
                    { id := s.nextId + 1, type := "airdrop", action := "airdrop_token"
                      description := "airdrop", thought := some "airdrop"
                      txSignature := none
                      amount := some
                        (recipients.foldl (fun acc r => acc + r.amount) 0)
                      tokenMint := some m, metadata := [], status := "pending" }]
                  · exact ⟨_, rfl, rfl⟩
                  · simp only [MemStorage.createAirdrop, MemStorage.createActivityLog]
                    exact lookupA_append_single_self _ _ _ hlnone

/-- After POST /api/burn with a treasury wallet and a valid request, the
burn record and its paired activity log are stored closed under the two
fresh ids, with the gateway-derived statuses. -/
theorem postBurn_spec (burnTokens : String → String → ℚ → TransactionResult)
    (req : BurnRequest) (s : MemStorage) (tw : Wallet) (hwf : s.WF)
    (hv : burnRequestValid req = true) (hw : s.getTreasuryWallet = some tw) :
    lookupA (postBurn burnTokens req s).2.burnRecords s.nextId = some
      { id := s.nextId, tokenMint := req.tokenMint, amount := req.amount
        txSignature :=
          (burnTokens tw.encryptedPrivateKey req.tokenMint req.amount).txSignature
        reason := req.reason
        status :=
          if (burnTokens tw.encryptedPrivateKey req.tokenMint req.amount).success
          then "success" else "failed" } ∧
    lookupA (postBurn burnTokens req s).2.activityLogs (s.nextId + 1) = some
      { id := s.nextId + 1, type := "burn", action := "burn_tokens"
        description := "burn", thought := req.reason
        txSignature :=
          (burnTokens tw.encryptedPrivateKey req.tokenMint req.amount).txSignature
        amount := some req.amount, tokenMint := some req.tokenMint, metadata := []
        status :=
          if (burnTokens tw.encryptedPrivateKey req.tokenMint req.amount).success
          then "success" else "failed" } := by
  have h1 : lookupA s.burnRecords s.nextId = none :=
    lookupA_eq_none_of_ge _ _ _ hwf.2.2.2.1 le_rfl
  have h2 : lookupA s.activityLogs (s.nextId + 1) = none :=
    lookupA_eq_none_of_ge _ _ _ hwf.2.2.1 (Nat.le_succ _)
  have ha : lookupA (s.burnRecords ++
      [(s.nextId,
        { id := s.nextId, tokenMint := req.tokenMint, amount := req.amount
          txSignature := none, reason := req.reason
          status := "pending" })]) s.nextId = some
        { id := s.nextId, tokenMint := req.tokenMint, amount := req.amount
          txSignature := none, reason := req.reason, status := "pending" } :=
    lookupA_append_single_self _ _ _ h1
  have hb : lookupA (s.activityLogs ++
      [(s.nextId + 1,
        { id := s.nextId + 1, type := "burn", action := "burn_tokens"
          description := "burn", thought := req.reason, txSignature := none
          amount := some req.amount, tokenMint := some req.tokenMint
          metadata := [], status := "pending" })]) (s.nextId + 1) = some
        { id := s.nextId + 1, type := "burn", action := "burn_tokens"
          description := "burn", thought := req.reason, txSignature := none
          amount := some req.amount, tokenMint := some req.tokenMint
          metadata := [], status := "pending" } :=
    lookupA_append_single_self _ _ _ h2
  unfold postBurn
  rw [hv]
  simp only [Bool.true_eq_false, if_false, hw]
  simp only [MemStorage.createBurnRecord, MemStorage.createActivityLog,
    MemStorage.updateBurnRecord, MemStorage.updateActivityLog, ha, hb,
    applyBurnRecordUpdate, applyActivityLogUpdate]
  cases (burnTokens tw.encryptedPrivateKey req.tokenMint req.amount).success <;>
    simp [lookupA_replaceA_self, ha, hb]

/-- After POST /api/buyback with a treasury wallet and a valid request, the
buyback record and its paired activity log are stored closed under the two
fresh ids, with the gateway-derived statuses. -/
theorem postBuyback_spec (buyToken : String → String → ℚ → TransactionResult)
    (req : BuybackRequest) (s : MemStorage) (tw : Wallet) (hwf : s.WF)
    (hv : buybackRequestValid req = true) (hw : s.getTreasuryWallet = some tw) :
    lookupA (postBuyback buyToken req s).2.buybackRecords s.nextId = some
      { id := s.nextId, tokenMint := req.tokenMint, solSpent := req.solAmount
        tokensReceived := none
        txSignature :=
          (buyToken tw.encryptedPrivateKey req.tokenMint req.solAmount).txSignature
        reason := req.reason
        status :=
          if (buyToken tw.encryptedPrivateKey req.tokenMint req.solAmount).success
          then "success" else "failed" } ∧
    lookupA (postBuyback buyToken req s).2.activityLogs (s.nextId + 1) = some
      { id := s.nextId + 1, type := "buyback", action := "buyback_tokens"
        description := "buyback", thought := req.reason
        txSignature :=
          (buyToken tw.encryptedPrivateKey req.tokenMint req.solAmount).txSignature
        amount := some req.solAmount, tokenMint := some req.tokenMint, metadata := []
        status :=
          if (buyToken tw.encryptedPrivateKey req.tokenMint req.solAmount).success
          then "success" else "failed" } := by
  have h1 : lookupA s.buybackRecords s.nextId = none :=
    lookupA_eq_none_of_ge _ _ _ hwf.2.2.2.2.1 le_rfl
  have h2 : lookupA s.activityLogs (s.nextId + 1) = none :=
    lookupA_eq_none_of_ge _ _ _ hwf.2.2.1 (Nat.le_succ _)
  have ha : lookupA (s.buybackRecords ++
      [(s.nextId,
        { id := s.nextId, tokenMint := req.tokenMint, solSpent := req.solAmount
          tokensReceived := none, txSignature := none, reason := req.reason
          status := "pending" })]) s.nextId = some
        { id := s.nextId, tokenMint := req.tokenMint, solSpent := req.solAmount
          tokensReceived := none, txSignature := none, reason := req.reason
          status := "pending" } :=
    lookupA_append_single_self _ _ _ h1
  have hb : lookupA (s.activityLogs ++
      [(s.nextId + 1,
        { id := s.nextId + 1, type := "buyback", action := "buyback_tokens"
          description := "buyback", thought := req.reason, txSignature := none
          amount := some req.solAmount, tokenMint := some req.tokenMint
          metadata := [], status := "pending" })]) (s.nextId + 1) = some
        { id := s.nextId + 1, type := "buyback", action := "buyback_tokens"
          description := "buyback", thought := req.reason, txSignature := none
          amount := some req.solAmount, tokenMint := some req.tokenMint
          metadata := [], status := "pending" } :=
    lookupA_append_single_self _ _ _ h2
  unfold postBuyback
  rw [hv]
  simp only [Bool.true_eq_false, if_false, hw]
  simp only [MemStorage.createBuybackRecord, MemStorage.createActivityLog,
    MemStorage.updateBuybackRecord, MemStorage.updateActivityLog, ha, hb,
    applyBuybackRecordUpdate, applyActivityLogUpdate]
  cases (buyToken tw.encryptedPrivateKey req.tokenMint req.solAmount).success <;>
    simp [lookupA_replaceA_self, ha, hb]

/-- After POST /api/rewards/claim with a treasury wallet, the reward record
is stored closed with claimed or failed while its paired activity log is
stored closed with success or failed. -/
theorem postClaimRewards_spec (getPendingRewards : String → ℚ)
    (claimCreatorRewards : String → String → TransactionResult)
    (now : Nat) (tokenMint : String) (s : MemStorage) (tw : Wallet) (hwf : s.WF)
    (hw : s.getTreasuryWallet = some tw) :
    lookupA
      (postClaimRewards getPendingRewards claimCreatorRewards now tokenMint s).2.creatorRewards
      s.nextId = some
      { id := s.nextId, tokenMint := tokenMint
        amount := getPendingRewards tokenMint
        claimTxSignature :=
          (claimCreatorRewards tw.encryptedPrivateKey tokenMint).txSignature
        status :=
          if (claimCreatorRewards tw.encryptedPrivateKey tokenMint).success
          then "claimed" else "failed"
        claimedAt :=
          if (claimCreatorRewards tw.encryptedPrivateKey tokenMint).success
          then some now else none } ∧
    lookupA
      (postClaimRewards getPendingRewards claimCreatorRewards now tokenMint s).2.activityLogs
      (s.nextId + 1) = some
      { id := s.nextId + 1, type := "claim_rewards", action := "claim_creator_rewards"
        description := "claim", thought := some "claim"
        txSignature :=
          (claimCreatorRewards tw.encryptedPrivateKey tokenMint).txSignature
        amount := some (getPendingRewards tokenMint), tokenMint := some tokenMint
        metadata := []
        status :=
          if (claimCreatorRewards tw.encryptedPrivateKey tokenMint).success
          then "success" else "failed" } := by
  have h1 : lookupA s.creatorRewards s.nextId = none :=
    lookupA_eq_none_of_ge _ _ _ hwf.2.2.2.2.2 le_rfl
  have h2 : lookupA s.activityLogs (s.nextId + 1) = none :=
    lookupA_eq_none_of_ge _ _ _ hwf.2.2.1 (Nat.le_succ _)
  have ha : lookupA (s.creatorRewards ++
      [(s.nextId,
        { id := s.nextId, tokenMint := tokenMint
          amount := getPendingRewards tokenMint
          claimTxSignature := none, status := "pending"
          claimedAt := none })]) s.nextId = some
        { id := s.nextId, tokenMint := tokenMint
          amount := getPendingRewards tokenMint
          claimTxSignature := none, status := "pending", claimedAt := none } :=
    lookupA_append_single_self _ _ _ h1
  have hb : lookupA (s.activityLogs ++
      [(s.nextId + 1,
        { id := s.nextId + 1, type := "claim_rewards"
          action := "claim_creator_rewards", description := "claim"
          thought := some "claim", txSignature := none
          amount := some (getPendingRewards tokenMint)
          tokenMint := some tokenMint
          metadata := [], status := "pending" })]) (s.nextId + 1) = some
        { id := s.nextId + 1, type := "claim_rewards"
          action := "claim_creator_rewards", description := "claim"
          thought := some "claim", txSignature := none
          amount := some (getPendingRewards tokenMint)
          tokenMint := some tokenMint
          metadata := [], status := "pending" } :=
    lookupA_append_single_self _ _ _ h2
  unfold postClaimRewards
  rw [hw]
  simp only [MemStorage.createCreatorReward, MemStorage.createActivityLog,
    MemStorage.updateCreatorReward, MemStorage.updateActivityLog, ha, hb,
    applyCreatorRewardUpdate, applyActivityLogUpdate]
  cases (claimCreatorRewards tw.encryptedPrivateKey tokenMint).success <;>
    simp [lookupA_replaceA_self, ha, hb]

/-! Concrete fixtures for the closed runs. -/

/-- A transfer oracle whose every call fails with a gateway error. -/
def failTransfer : String → String → ℚ → TransactionResult :=
  fun _ _ _ => { success := false, txSignature := none, error := some "upstream error" }

/-- A token-transfer oracle whose every call fails with a gateway error. -/
def failTokenTransfer : String → String → String → ℚ → TransactionResult :=
  fun _ _ _ _ => { success := false, txSignature := none, error := some "upstream error" }

/-- A transfer oracle whose every call settles with a fixed signature. -/
def okTransfer : String → String → ℚ → TransactionResult :=
  fun _ _ _ => { success := true, txSignature := some "SIG", error := none }

/-- A token-transfer oracle whose every call settles with a fixed signature. -/
def okTokenTransfer : String → String → String → ℚ → TransactionResult :=
  fun _ _ _ _ => { success := true, txSignature := some "SIG", error := none }

/-- A configured treasury wallet row. -/
def treasuryWallet : Wallet :=
  { id := 0, publicKey := "TREASURY_PUB", encryptedPrivateKey := "TREASURY_KEY"
    type := "treasury", label := none }

/-- A store holding only the configured treasury wallet. -/
def sampleStore : MemStorage :=
  { nextId := 1
    wallets := [(0, treasuryWallet)]
    airdrops := [], activityLogs := [], burnRecords := []
    buybackRecords := [], creatorRewards := [] }

theorem sampleStore_wf : sampleStore.WF := by
  unfold MemStorage.WF keysBelow sampleStore
  refine ⟨?_, ?_, ?_, ?_, ?_, ?_⟩ <;> decide

/-- A one-recipient SOL distribution request. -/
def soloRequest : AirdropRequest :=
  { type := AirdropType.sol, tokenMint := none
    recipients := [{ wallet := "alice", amount := 1 }], snapshotId := none }

/-- A two-recipient SOL distribution request. -/
def pairRequest : AirdropRequest :=
  { type := AirdropType.sol, tokenMint := none
    recipients := [{ wallet := "alice", amount := 1 }, { wallet := "bob", amount := 2 }]
    snapshotId := none }

/-- A managed-asset distribution request that omits the asset identifier. -/
def missingMintRequest : AirdropRequest :=
  { type := AirdropType.token, tokenMint := none
    recipients := [{ wallet := "alice", amount := 1 }], snapshotId := none }

/-- A distribution record already closed as completed. -/
def completedAirdropRecord : Airdrop :=
  { id := 0, type := AirdropType.sol, tokenMint := none, totalAmount := 5
    recipientCount := 1
    distributionData := [{ wallet := "alice", amount := 5, txSignature := some "SIG"
                           success := true, error := none }]
    snapshotId := none, status := "completed", completedAt := some 3 }

/-- A burn record already closed as success. -/
def successBurnRecord : BurnRecord :=
  { id := 0, tokenMint := "MINT", amount := 1000, txSignature := some "SIG"
    reason := none, status := "success" }

/-- A store whose only records are terminal. -/
def terminalStore : MemStorage :=
  { nextId := 1, wallets := [], airdrops := [(0, completedAirdropRecord)]
    activityLogs := [], burnRecords := [(0, successBurnRecord)]
    buybackRecords := [], creatorRewards := [] }

/-- A transfer oracle that fails for alice and settles for everyone else. -/
def mixedTransfer : String → String → ℚ → TransactionResult :=
  fun _ toAddress _ =>
    if toAddress = "alice"
    then { success := false, txSignature := none, error := some "upstream error" }
    else { success := true, txSignature := some "SIG", error := none }

/-- A claim oracle that settles with a fixed signature. -/
def okClaim : String → String → TransactionResult :=
  fun _ _ => { success := true, txSignature := some "SIG", error := none }

/-- An empty-recipients distribution request. -/
def emptyRequest : AirdropRequest :=
  { type := AirdropType.sol, tokenMint := none, recipients := [], snapshotId := none }

/-! The claims. -/

/-- C1: the spec says zero recipient successes close a distribution as
failed; on the code the updateAirdrop status expression (part_001 405) is
completed when every result succeeded and partial otherwise, so an all-fail
run is stored as partial and no input ever produces failed. The schema's
own status comment (schema.ts 127) lists failed and not partial. -/
theorem airdropAllFailGivesNonFailedStatus :
    ((lookupA
        (postAirdrop failTransfer failTokenTransfer 7 soloRequest sampleStore).2.airdrops
        1).map Airdrop.status = some "partial") ∧
    ((postAirdrop failTransfer failTokenTransfer 7 soloRequest sampleStore).1
      = .ok 1 0 1 [{ wallet := "alice", amount := 1, txSignature := none
                     success := false, error := some "upstream error" }]) ∧
    ∀ successCount total : Nat, airdropStatusOf successCount total ≠ "failed" := by
  refine ⟨by decide, by decide, ?_⟩
  intro successCount total
  unfold airdropStatusOf
  split <;> decide

/-- C2 counterexample: the record store accepts an update on a record whose
status is already terminal, returning and storing the merged record with no
rejection and no flag. -/
theorem terminalAirdropUpdateSilentlyAccepted :
    completedAirdropRecord.status = "completed" ∧
    (terminalStore.updateAirdrop 0 { status := some "processing" }).1
      = some { completedAirdropRecord with status := "processing" } ∧
    lookupA (terminalStore.updateAirdrop 0
        { status := some "processing" }).2.airdrops 0
      = some { completedAirdropRecord with status := "processing" } := by decide

/-- C2 amended: update on a stored operation record — terminal status
included — is applied unconditionally and stored; only a missing id is
rejected (undefined). There is no terminal-status guard, so a terminal
record can transition to any other status silently. -/
theorem storageUpdatesApplyUnconditionally (s : MemStorage) (rid bid : Nat)
    (a : Airdrop) (r : BurnRecord) (sa sb : String)
    (hat : a.status = "completed" ∨ a.status = "partial" ∨ a.status = "failed")
    (hrt : r.status = "success" ∨ r.status = "failed")
    (ha : lookupA s.airdrops rid = some a)
    (hr : lookupA s.burnRecords bid = some r) :
    (s.updateAirdrop rid { status := some sa }).1 = some { a with status := sa } ∧
    lookupA (s.updateAirdrop rid { status := some sa }).2.airdrops rid
      = some { a with status := sa } ∧
    (s.updateBurnRecord bid { status := some sb }).1 = some { r with status := sb } ∧
    lookupA (s.updateBurnRecord bid { status := some sb }).2.burnRecords bid
      = some { r with status := sb } := by
  refine ⟨?_, ?_, ?_, ?_⟩ <;>
    simp [MemStorage.updateAirdrop, MemStorage.updateBurnRecord, ha, hr,
      applyAirdropUpdate, applyBurnRecordUpdate, lookupA_replaceA_self]

theorem storageUpdatesApplyUnconditionallyWitness :
    (terminalStore.updateAirdrop 0 { status := some "processing" }).1
      = some { completedAirdropRecord with status := "processing" } ∧
    lookupA (terminalStore.updateAirdrop 0
        { status := some "processing" }).2.airdrops 0
      = some { completedAirdropRecord with status := "processing" } ∧
    (terminalStore.updateBurnRecord 0 { status := some "pending" }).1
      = some { successBurnRecord with status := "pending" } ∧
    lookupA (terminalStore.updateBurnRecord 0
        { status := some "pending" }).2.burnRecords 0
      = some { successBurnRecord with status := "pending" } :=
  storageUpdatesApplyUnconditionally terminalStore 0 0 completedAirdropRecord
    successBurnRecord "processing" "pending" (Or.inl rfl) (Or.inl rfl)
    (by decide) (by decide)

/-- C3: the spec says a managed-asset distribution without an asset id fails
before any record is opened; on the code the tokenMint check (part_001 382)
runs after createAirdrop and createActivityLog, so the 400 response leaves a
distribution record stuck in processing and an audit entry stuck in pending
in storage. -/
theorem tokenAirdropMissingMintLeavesRecords :
    (postAirdrop failTransfer failTokenTransfer 7 missingMintRequest sampleStore).1
      = .badRequest "Token mint required for token airdrop" ∧
    (postAirdrop failTransfer failTokenTransfer 7 missingMintRequest
        sampleStore).2.airdrops.length = 1 ∧
    ((lookupA (postAirdrop failTransfer failTokenTransfer 7 missingMintRequest
        sampleStore).2.airdrops 1).map Airdrop.status = some "processing") ∧
    ((lookupA (postAirdrop failTransfer failTokenTransfer 7 missingMintRequest
        sampleStore).2.airdrops 1).map Airdrop.distributionData = some []) ∧
    (postAirdrop failTransfer failTokenTransfer 7 missingMintRequest
        sampleStore).2.activityLogs.length = 1 ∧
    ((lookupA (postAirdrop failTransfer failTokenTransfer 7 missingMintRequest
        sampleStore).2.activityLogs 2).map ActivityLog.status = some "pending") := by
  decide

/-- C4: every distribution closed through the airdrop handler has as many
outcome entries as its recorded recipient count, and the outcome amounts sum
exactly to the stored total, which the handler computed as the sum of the
request amounts before execution. -/
theorem distributionTerminalCountAndTotalInvariant
    (transferSol : String → String → ℚ → TransactionResult)
    (transferToken : String → String → String → ℚ → TransactionResult)
    (now : Nat) (req : AirdropRequest) (s : MemStorage) (hwf : s.WF)
    (id sc fc : Nat) (dd : List DistributionEntry)
    (h : (postAirdrop transferSol transferToken now req s).1 = .ok id sc fc dd) :
    ∃ a : Airdrop,
      lookupA (postAirdrop transferSol transferToken now req s).2.airdrops id
        = some a ∧
      (a.status = "completed" ∨ a.status = "partial") ∧
      a.recipientCount = a.distributionData.length ∧
      (a.distributionData.map fun e => e.amount).sum = a.totalAmount ∧
      a.totalAmount = (req.recipients.map fun r => r.amount).sum := by
  obtain ⟨results, hlen, hid, hsc, hdd, hlook, -⟩ :=
    postAirdrop_ok_spec transferSol transferToken now req s hwf id sc fc dd h
  refine ⟨_, hlook, ?_, ?_, ?_, ?_⟩
  · by_cases hc : results.countP (fun r => r.result.success) = results.length
    · left
      simp [airdropStatusOf, hc]
    · right
      simp [airdropStatusOf, hc]
  · simp [mkDistributionData_length, hlen]
  · show ((mkDistributionData req.recipients results).map fun e => e.amount).sum
      = req.recipients.foldl (fun acc r => acc + r.amount) 0
    rw [mkDistributionData_map_amount _ _ hlen, foldl_add_amount]
    simp
  · show req.recipients.foldl (fun acc r => acc + r.amount) 0
      = (req.recipients.map fun r => r.amount).sum
    rw [foldl_add_amount]
    simp

theorem distributionTerminalCountAndTotalInvariantWitness :
    ∃ a : Airdrop,
      lookupA (postAirdrop okTransfer okTokenTransfer 7 pairRequest
        sampleStore).2.airdrops 1 = some a ∧
      (a.status = "completed" ∨ a.status = "partial") ∧
      a.recipientCount = a.distributionData.length ∧
      (a.distributionData.map fun e => e.amount).sum = a.totalAmount ∧
      a.totalAmount = (pairRequest.recipients.map fun r => r.amount).sum :=
  distributionTerminalCountAndTotalInvariant okTransfer okTokenTransfer 7
    pairRequest sampleStore sampleStore_wf 1 2 0
    [{ wallet := "alice", amount := 1, txSignature := some "SIG"
       success := true, error := none },
     { wallet := "bob", amount := 2, txSignature := some "SIG"
       success := true, error := none }]
    (by decide)

/-- C5: both batch loops call the gateway once per recipient in the original
request order — the call log is the request list itself — and return one
outcome per recipient in that order, each outcome depending only on its own
recipient, so an individual failure never aborts or reorders the batch. -/
theorem batchProcessesAllRecipientsInOrder
    (transferSol : String → String → ℚ → TransactionResult)
    (transferToken : String → String → String → ℚ → TransactionResult)
    (fromPrivateKey tokenMint : String) (recipients : List Recipient)
    (hne : recipients ≠ []) :
    batchAirdropSolAttempts transferSol fromPrivateKey recipients = recipients ∧
    batchAirdropSol transferSol fromPrivateKey recipients
      = recipients.map (fun r =>
          { wallet := r.wallet
            result := transferSol fromPrivateKey r.wallet r.amount }) ∧
    (batchAirdropSol transferSol fromPrivateKey recipients).length
      = recipients.length ∧
    batchAirdropTokensAttempts transferToken fromPrivateKey tokenMint recipients
      = recipients ∧
    batchAirdropTokens transferToken fromPrivateKey tokenMint recipients
      = recipients.map (fun r =>
          { wallet := r.wallet
            result := transferToken fromPrivateKey r.wallet tokenMint r.amount }) ∧
    (batchAirdropTokens transferToken fromPrivateKey tokenMint recipients).length
      = recipients.length := by
  refine ⟨?_, ?_, batchAirdropSol_length _ _ _, ?_, ?_,
    batchAirdropTokens_length _ _ _ _⟩ <;>
    simp [batchAirdropSolAttempts, batchAirdropSol, batchAirdropTokensAttempts,
      batchAirdropTokens, batchAirdropSolAux_spec, batchAirdropTokensAux_spec]

theorem batchProcessesAllRecipientsInOrderWitness :
    batchAirdropSolAttempts mixedTransfer "TREASURY_KEY"
        [{ wallet := "alice", amount := 1 }, { wallet := "bob", amount := 2 }]
      = [{ wallet := "alice", amount := 1 }, { wallet := "bob", amount := 2 }] :=
  (batchProcessesAllRecipientsInOrder mixedTransfer okTokenTransfer
    "TREASURY_KEY" "MINT"
    [{ wallet := "alice", amount := 1 }, { wallet := "bob", amount := 2 }]
    (by decide)).1

/-- C6 counterexample: an all-success distribution closes the operation
record as completed while its paired audit log closes as success, so the
two terminal statuses are not the same string. -/
theorem airdropAuditStatusDiffersFromRecord :
    ((lookupA (postAirdrop okTransfer okTokenTransfer 7 pairRequest
        sampleStore).2.airdrops 1).map Airdrop.status = some "completed") ∧
    ((lookupA (postAirdrop okTransfer okTokenTransfer 7 pairRequest
        sampleStore).2.activityLogs 2).map ActivityLog.status = some "success") ∧
    ("completed" : String) ≠ "success" := by decide

/-- C6 amended: burn and buyback close the record and its audit entry with
the same status; a reward claim closes the record with claimed or failed
while the audit closes with success or failed (they coincide only on
failure); a distribution closes the record with completed or partial while
the audit closes with success or failed, which are never the same string. -/
theorem auditStatusPairingPerOperation
    (burnTokens buyToken : String → String → ℚ → TransactionResult)
    (getPendingRewards : String → ℚ)
    (claimCreatorRewards : String → String → TransactionResult)
    (transferSol : String → String → ℚ → TransactionResult)
    (transferToken : String → String → String → ℚ → TransactionResult)
    (now : Nat)
    (reqB : BurnRequest) (sB : MemStorage) (twB : Wallet)
    (hwfB : sB.WF) (hvB : burnRequestValid reqB = true)
    (hwB : sB.getTreasuryWallet = some twB)
    (reqY : BuybackRequest) (sY : MemStorage) (twY : Wallet)
    (hwfY : sY.WF) (hvY : buybackRequestValid reqY = true)
    (hwY : sY.getTreasuryWallet = some twY)
    (mintC : String) (sC : MemStorage) (twC : Wallet) (hwfC : sC.WF)
    (hwC : sC.getTreasuryWallet = some twC)
    (reqA : AirdropRequest) (sA : MemStorage) (hwfA : sA.WF)
    (id sc fc : Nat) (dd : List DistributionEntry)
    (hA : (postAirdrop transferSol transferToken now reqA sA).1 = .ok id sc fc dd) :
    (∃ rec log,
      lookupA (postBurn burnTokens reqB sB).2.burnRecords sB.nextId = some rec ∧
      lookupA (postBurn burnTokens reqB sB).2.activityLogs (sB.nextId + 1)
        = some log ∧
      rec.status = log.status) ∧
    (∃ rec log,
      lookupA (postBuyback buyToken reqY sY).2.buybackRecords sY.nextId = some rec ∧
      lookupA (postBuyback buyToken reqY sY).2.activityLogs (sY.nextId + 1)
        = some log ∧
      rec.status = log.status) ∧
    (∃ rec log,
      lookupA (postClaimRewards getPendingRewards claimCreatorRewards now mintC
        sC).2.creatorRewards sC.nextId = some rec ∧
      lookupA (postClaimRewards getPendingRewards claimCreatorRewards now mintC
        sC).2.activityLogs (sC.nextId + 1) = some log ∧
      (rec.status = "claimed" ∨ rec.status = "failed") ∧
      (rec.status = "claimed" ↔ log.status = "success") ∧
      (rec.status = "failed" ↔ log.status = "failed")) ∧
    (∃ a l,
      lookupA (postAirdrop transferSol transferToken now reqA sA).2.airdrops id
        = some a ∧
      lookupA (postAirdrop transferSol transferToken now reqA sA).2.activityLogs
        (sA.nextId + 1) = some l ∧
      (a.status = "completed" ∨ a.status = "partial") ∧
      (l.status = "success" ∨ l.status = "failed") ∧
      a.status ≠ l.status) := by
  refine ⟨?_, ?_, ?_, ?_⟩
  · obtain ⟨h1, h2⟩ := postBurn_spec burnTokens reqB sB twB hwfB hvB hwB
    exact ⟨_, _, h1, h2, rfl⟩
  · obtain ⟨h1, h2⟩ := postBuyback_spec buyToken reqY sY twY hwfY hvY hwY
    exact ⟨_, _, h1, h2, rfl⟩
  · obtain ⟨h1, h2⟩ := postClaimRewards_spec getPendingRewards claimCreatorRewards
      now mintC sC twC hwfC hwC
    refine ⟨_, _, h1, h2, ?_, ?_, ?_⟩ <;>
      cases hres : (claimCreatorRewards twC.encryptedPrivateKey mintC).success <;>
      simp [hres]
  · obtain ⟨results, hlen, hid, hsc, hdd, hlook, l, hllook, hlstat⟩ :=
      postAirdrop_ok_spec transferSol transferToken now reqA sA hwfA id sc fc dd hA
    refine ⟨_, l, hlook, hllook, ?_, ?_, ?_⟩
    · by_cases hc : results.countP (fun r => r.result.success) = results.length
      · left
        simp [airdropStatusOf, hc]
      · right
        simp [airdropStatusOf, hc]
    · rw [hlstat, ← hsc]
      by_cases hp : sc > 0
      · left
        simp [airdropLogStatusOf, hp]
      · right
        simp [airdropLogStatusOf, hp]
    · rw [hlstat]
      show airdropStatusOf (results.countP fun r => r.result.success) results.length
        ≠ airdropLogStatusOf (results.countP fun r => r.result.success)
      unfold airdropStatusOf airdropLogStatusOf
      split <;> split <;> decide

theorem auditStatusPairingPerOperationWitness :
    ∃ rec log,
      lookupA (postBurn okTransfer
        { tokenMint := "MINT", amount := 1000, reason := none }
        sampleStore).2.burnRecords 1 = some rec ∧
      lookupA (postBurn okTransfer
        { tokenMint := "MINT", amount := 1000, reason := none }
        sampleStore).2.activityLogs 2 = some log ∧
      rec.status = log.status :=
  (auditStatusPairingPerOperation okTransfer okTransfer (fun _ => 5) okClaim
    okTransfer okTokenTransfer 7
    { tokenMint := "MINT", amount := 1000, reason := none } sampleStore
    treasuryWallet sampleStore_wf (by decide) (by decide)
    { tokenMint := "MINT", solAmount := 2, reason := none } sampleStore
    treasuryWallet sampleStore_wf (by decide) (by decide)
    "MINT" sampleStore treasuryWallet sampleStore_wf (by decide)
    pairRequest sampleStore sampleStore_wf 1 2 0
    [{ wallet := "alice", amount := 1, txSignature := some "SIG"
       success := true, error := none },
     { wallet := "bob", amount := 2, txSignature := some "SIG"
       success := true, error := none }]
    (by decide)).1

/-- C7: an empty-recipients distribution request fails zod validation
(min 1) and is answered 400 with the storage state untouched: no
distribution record and no audit entry is created. -/
theorem emptyRecipientsRejectedWithoutState
    (transferSol : String → String → ℚ → TransactionResult)
    (transferToken : String → String → String → ℚ → TransactionResult)
    (now : Nat) (req : AirdropRequest) (s : MemStorage)
    (hempty : req.recipients = []) :
    (postAirdrop transferSol transferToken now req s).2 = s ∧
    (postAirdrop transferSol transferToken now req s).2.airdrops = s.airdrops ∧
    (postAirdrop transferSol transferToken now req s).2.activityLogs
      = s.activityLogs ∧
    (postAirdrop transferSol transferToken now req s).1
      = .badRequest "invalid request" := by
  have hv : airdropRequestValid req = false := by
    simp [airdropRequestValid, hempty]
  unfold postAirdrop
  rw [hv]
  simp

theorem emptyRecipientsRejectedWithoutStateWitness :
    (postAirdrop failTransfer failTokenTransfer 7 emptyRequest sampleStore).2
      = sampleStore ∧
    (postAirdrop failTransfer failTokenTransfer 7 emptyRequest
        sampleStore).2.airdrops = sampleStore.airdrops ∧
    (postAirdrop failTransfer failTokenTransfer 7 emptyRequest
        sampleStore).2.activityLogs = sampleStore.activityLogs ∧
    (postAirdrop failTransfer failTokenTransfer 7 emptyRequest sampleStore).1
      = .badRequest "invalid request" :=
  emptyRecipientsRejectedWithoutState failTransfer failTokenTransfer 7
    emptyRequest sampleStore rfl

/-- C8: proportional planning gives every holder but the last the formula
share and the last holder the exact remainder, so the allocations sum to
exactly the requested total. -/
theorem proportionalPlanSumsToTotal (balances : List ℚ) (total : ℚ)
    (hne : balances ≠ []) (hpos : 0 < total) :
    planProportional balances total
      = (balances.dropLast.map fun b => total * (b / balances.sum)) ++
          [total - ((balances.dropLast.map fun b => total * (b / balances.sum)).sum)] ∧
    (planProportional balances total).sum = total := by
  obtain ⟨b, bs, rfl⟩ := List.exists_cons_of_ne_nil hne
  constructor
  · rfl
  · simp [planProportional]

theorem proportionalPlanSumsToTotalWitness :
    (planProportional [70, 20, 10] 100).sum = 100 ∧
    planProportional [70, 20, 10] 100 = [70, 20, 10] :=
  ⟨(proportionalPlanSumsToTotal [70, 20, 10] 100 (by decide) (by norm_num)).2,
   by norm_num [planProportional]⟩

/-- C9: the wallet-generation response and the activity log the handler
writes are the same whatever the generated private key is — the key reaches
only the stored wallet row — and the response carries exactly the id, public
key, type, label and the fixed warning. -/
theorem walletGenerateResponseIndependentOfPrivateKey
    (pub k1 k2 : String) (type : String) (label : Option String) (s : MemStorage) :
    (postWalletGenerate { publicKey := pub, privateKey := k1 } type label s).1
      = (postWalletGenerate { publicKey := pub, privateKey := k2 } type label s).1 ∧
    (postWalletGenerate { publicKey := pub, privateKey := k1 } type label
        s).2.activityLogs
      = (postWalletGenerate { publicKey := pub, privateKey := k2 } type label
        s).2.activityLogs ∧
    (postWalletGenerate { publicKey := pub, privateKey := k1 } type label s).1
      = { id := s.nextId, publicKey := pub, type := type, label := label
          warning :=
            "Private key stored securely. Export via secure channel if needed." } :=
  ⟨rfl, rfl, rfl⟩

/-- C10: the balance reads are total functions into amounts; any RPC or
account-lookup failure is caught and becomes the balance 0, so an error is
indistinguishable from a genuinely zero balance, and a mint-read failure
falls back to 6 decimals. -/
theorem balanceReadsDefaultToZero :
    (∀ e : String, getSolBalance (.error e) = 0) ∧
    (∀ e : String, getSolBalance (.error e) = getSolBalance (.ok 0)) ∧
    (∀ (e : String) (mintRead : Except String Nat),
      getTokenBalance (.error e) mintRead = 0) ∧
    (∀ (e : String) (mintRead : Except String Nat),
      getTokenBalance (.error e) mintRead = getTokenBalance (.ok 0) mintRead) ∧
    (∀ e : String, getTokenDecimals (.error e) = 6) := by
  refine ⟨fun e => rfl, fun e => ?_, fun e mintRead => rfl,
    fun e mintRead => ?_, fun e => rfl⟩
  · simp [getSolBalance]
  · simp [getTokenBalance]

end GrokedBackend
